import Mathlib

/-!
Formal model of the attendance report generator repository
(`attendance_app.py` and the scripts `attendance_report_generator.py`,
`convert_docx_to_pdf_LIBREOFFICE.py`,
`attendance_report_generator_DIRECT_PDF_FINAL.py`).

Rows and student records are modelled explicitly; the attendance value is
a rational number; the external LibreOffice conversion is modelled as an
oracle describing the outcome of one `subprocess.run` invocation.
-/

namespace AttendanceReport

/-- The attendance category computed in sections 6B/6C of
`attendance_report_generator.py` (and identically in `generate_reports`
of `attendance_app.py` and in the direct-PDF script): the percentage is
`attendance * 100` and the `if/elif/else` ladder checks `>= 80`,
`>= 70`, `>= 60` top down, with a final `else` branch. -/
def classifyCategory (attendance : ℚ) : String :=
  let attendance_percent : ℚ := attendance * 100
  if attendance_percent ≥ 80 then "Excellent attendance"
  else if attendance_percent ≥ 70 then "Very good attendance"
  else if attendance_percent ≥ 60 then "Good attendance"
  else "Attendance could be better"

/-- Helper: the classifier always returns one of the four fixed labels. -/
theorem classifyCategory_total_cases (f : ℚ) :
    classifyCategory f = "Excellent attendance" ∨
    classifyCategory f = "Very good attendance" ∨
    classifyCategory f = "Good attendance" ∨
    classifyCategory f = "Attendance could be better" := by
  unfold classifyCategory
  dsimp only
  split_ifs <;> simp

/-- C1: the classifier is a pure function of the attendance fraction with
inclusive lower bounds evaluated high-to-low; the four tiers partition the
input space with no gaps and no overlaps (each label holds exactly on its
half-open band), and the concrete inputs 0.80, 0.79999, 0.70 and 0.5
classify as the spec states. -/
theorem claim_C1_classifier_tiers :
    (∀ f : ℚ,
      (classifyCategory f = "Excellent attendance" ↔ 80 ≤ f * 100) ∧
      (classifyCategory f = "Very good attendance" ↔ 70 ≤ f * 100 ∧ f * 100 < 80) ∧
      (classifyCategory f = "Good attendance" ↔ 60 ≤ f * 100 ∧ f * 100 < 70) ∧
      (classifyCategory f = "Attendance could be better" ↔ f * 100 < 60)) ∧
    classifyCategory (80/100) = "Excellent attendance" ∧
    classifyCategory (79999/100000) = "Very good attendance" ∧
    classifyCategory (70/100) = "Very good attendance" ∧
    classifyCategory (1/2) = "Attendance could be better" := by
  refine ⟨fun f => ?_, by norm_num [classifyCategory], by norm_num [classifyCategory],
    by norm_num [classifyCategory], by norm_num [classifyCategory]⟩
  unfold classifyCategory
  dsimp only
  split_ifs with h1 h2 h3
  · refine ⟨⟨fun _ => by linarith, fun _ => rfl⟩,
      ⟨fun h => absurd h (by decide), fun h => by exfalso; linarith [h.2]⟩,
      ⟨fun h => absurd h (by decide), fun h => by exfalso; linarith [h.2]⟩,
      ⟨fun h => absurd h (by decide), fun h => by exfalso; linarith⟩⟩
  · have h1' : f * 100 < 80 := not_le.mp h1
    refine ⟨⟨fun h => absurd h (by decide), fun h => by exfalso; linarith⟩,
      ⟨fun _ => ⟨by linarith, h1'⟩, fun _ => rfl⟩,
      ⟨fun h => absurd h (by decide), fun h => by exfalso; linarith [h.2]⟩,
      ⟨fun h => absurd h (by decide), fun h => by exfalso; linarith⟩⟩
  · have h2' : f * 100 < 70 := not_le.mp h2
    refine ⟨⟨fun h => absurd h (by decide), fun h => by exfalso; linarith⟩,
      ⟨fun h => absurd h (by decide), fun h => by exfalso; linarith [h.1]⟩,
      ⟨fun _ => ⟨by linarith, h2'⟩, fun _ => rfl⟩,
      ⟨fun h => absurd h (by decide), fun h => by exfalso; linarith⟩⟩
  · have h3' : f * 100 < 60 := not_le.mp h3
    refine ⟨⟨fun h => absurd h (by decide), fun h => by exfalso; linarith⟩,
      ⟨fun h => absurd h (by decide), fun h => by exfalso; linarith [h.1]⟩,
      ⟨fun h => absurd h (by decide), fun h => by exfalso; linarith [h.1]⟩,
      ⟨fun _ => h3', fun _ => rfl⟩⟩

/-- The value cells of rows 1-4, column 1 of the template's second table
(`doc.tables[1].rows[i].cells[1].text` for `i = 1..4`), as written by
section 6F of `attendance_report_generator.py` and by `generate_reports`
of `attendance_app.py`. -/
structure CheckboxCells where
  row1 : String
  row2 : String
  row3 : String
  row4 : String
  deriving Repr, DecidableEq

/-- The clear-then-set sequence of section 6F / `generate_reports`: all
four value cells are first set to the empty string, then the cell of the
row matching the computed category is set to the marker "Yes" by the
`if/elif/else` ladder on the category string.  `init` is whatever the
fresh template copy held in those cells. -/
def fillCheckboxes (init : CheckboxCells) (attendance_category : String) : CheckboxCells :=
  let cleared : CheckboxCells := { init with row1 := "", row2 := "", row3 := "", row4 := "" }
  if attendance_category = "Excellent attendance" then { cleared with row1 := "Yes" }
  else if attendance_category = "Very good attendance" then { cleared with row2 := "Yes" }
  else if attendance_category = "Good attendance" then { cleared with row3 := "Yes" }
  else { cleared with row4 := "Yes" }

/-- The four checkbox value cells as a list, in row order. -/
def cellsList (c : CheckboxCells) : List String :=
  [c.row1, c.row2, c.row3, c.row4]

/-- C2: after filling, exactly one of the four checkbox value cells
contains the marker "Yes" and the other three contain the empty string,
for every attendance fraction and every initial cell content. -/
theorem claim_C2_exactly_one_marked (f : ℚ) (init : CheckboxCells) :
    (cellsList (fillCheckboxes init (classifyCategory f))).count "Yes" = 1 ∧
    (cellsList (fillCheckboxes init (classifyCategory f))).count "" = 3 ∧
    (cellsList (fillCheckboxes init (classifyCategory f))).length = 4 := by
  rcases classifyCategory_total_cases f with h | h | h | h <;>
    rw [h] <;> exact ⟨rfl, rfl, rfl⟩

/-- C9: the classifier performs no range validation: every fraction
strictly greater than 1 lands in the top tier and every negative
fraction lands in the bottom tier, with no clamping and no error (the
function is total). -/
theorem claim_C9_no_range_validation (f : ℚ) :
    (1 < f → classifyCategory f = "Excellent attendance") ∧
    (f < 0 → classifyCategory f = "Attendance could be better") := by
  constructor
  · intro h
    unfold classifyCategory
    dsimp only
    rw [if_pos (by linarith : (80 : ℚ) ≤ f * 100)]
  · intro h
    unfold classifyCategory
    dsimp only
    rw [if_neg (by push_neg; linarith : ¬ f * 100 ≥ 80),
      if_neg (by push_neg; linarith : ¬ f * 100 ≥ 70),
      if_neg (by push_neg; linarith : ¬ f * 100 ≥ 60)]

/-- Witness for C9 at the out-of-range fractions 2 and -1/2. -/
theorem claim_C9_no_range_validation_witness :
    classifyCategory 2 = "Excellent attendance" ∧
    classifyCategory (-1/2) = "Attendance could be better" :=
  ⟨(claim_C9_no_range_validation 2).1 (by norm_num),
   (claim_C9_no_range_validation (-1/2)).2 (by norm_num)⟩

/-- One raw spreadsheet row after `pd.read_excel(..., skiprows=1)`: the
identifier column ("BNU ID") may be empty in the source (pandas NaN),
modelled as an `Option`; the remaining fields are the columns the
scripts read ("Name", "Surname", "Campus", "LIVE", "Group Ref"). -/
structure Row where
  name : String
  surname : String
  bnuId : Option Int
  campus : String
  live : ℚ
  groupRef : String
  deriving Repr, DecidableEq

/-- The cleaning step `df = df.dropna(subset=["BNU ID"])` of section 5 of
`attendance_report_generator.py` and of `attendance_app.py`: rows whose
identifier cell is empty are removed, nothing else changes. -/
def dropnaBnuId (rows : List Row) : List Row :=
  rows.filter (fun r => r.bnuId.isSome)

/-- Helper: the dropna step keeps `length - (number of identifier-less rows)`
rows. -/
theorem dropnaBnuId_length (rows : List Row) :
    (dropnaBnuId rows).length = rows.length - rows.countP (fun x => x.bnuId.isNone) := by
  induction rows with
  | nil => rfl
  | cons x xs ih =>
    have hle : xs.countP (fun y => y.bnuId.isNone) ≤ xs.length := List.countP_le_length _
    rcases hx : x.bnuId with _ | v
    · have h1 : dropnaBnuId (x :: xs) = dropnaBnuId xs := by
        simp [dropnaBnuId, List.filter_cons, hx]
      have h2 : (x :: xs).countP (fun y => y.bnuId.isNone)
          = xs.countP (fun y => y.bnuId.isNone) + 1 := by
        simp [List.countP_cons, hx]
      rw [h1, h2]
      simp only [List.length_cons]
      omega
    · have h1 : dropnaBnuId (x :: xs) = x :: dropnaBnuId xs := by
        simp [dropnaBnuId, List.filter_cons, hx]
      have h2 : (x :: xs).countP (fun y => y.bnuId.isNone)
          = xs.countP (fun y => y.bnuId.isNone) := by
        simp [List.countP_cons, hx]
      rw [h1, h2]
      simp only [List.length_cons]
      omega

/-- Four sample source rows, the second lacking an identifier value. -/
def sampleRows4 : List Row :=
  [⟨"Ada", "Lovelace", some 101, "High Wycombe", 85/100, "G1"⟩,
   ⟨"Alan", "Turing", none, "High Wycombe", 70/100, "G1"⟩,
   ⟨"Grace", "Hopper", some 103, "Uxbridge", 65/100, "G2"⟩,
   ⟨"Edsger", "Dijkstra", some 104, "Uxbridge", 55/100, "G2"⟩]

/-- C4: a row whose identifier cell is empty never appears in the record
sequence produced by the dropna cleaning step (filtering, not erroring,
no defaulting); the number of surviving rows equals the number of input
rows minus the number of identifier-less rows; and the spec's concrete
scenario (4 rows, one without identifier) yields exactly 3 records. -/
theorem claim_C4_identifierless_rows_filtered (rows : List Row) (r : Row)
    (hr : r.bnuId = none) :
    r ∉ dropnaBnuId rows ∧
    (dropnaBnuId rows).length = rows.length - rows.countP (fun x => x.bnuId.isNone) ∧
    (dropnaBnuId sampleRows4).length = 3 := by
  refine ⟨?_, dropnaBnuId_length rows, rfl⟩
  intro hmem
  unfold dropnaBnuId at hmem
  have hp := (List.mem_filter.mp hmem).2
  rw [hr] at hp
  simp at hp

/-- Witness for C4: the second sample row has no identifier and indeed
does not survive the cleaning step. -/
theorem claim_C4_identifierless_rows_filtered_witness :
    Row.mk "Alan" "Turing" none "High Wycombe" (70/100) "G1" ∉ dropnaBnuId sampleRows4 :=
  (claim_C4_identifierless_rows_filtered sampleRows4
    (Row.mk "Alan" "Turing" none "High Wycombe" (70/100) "G1") rfl).1

/-- One cleaned student record as sections 6A of the scripts extract it
from a surviving row: `bnu_id = str(int(row[...]))` makes the identifier
an integer, the other fields are read as they are. -/
structure StudentRec where
  name : String
  surname : String
  bnuId : Int
  campus : String
  live : ℚ
  groupRef : String
  deriving Repr, DecidableEq

/-- The output naming convention used by every script and by the web app
when grouping is off: `{bnu_id}_{surname}_{name}_Attendance_Report`. -/
def zipEntryBase (r : StudentRec) : String :=
  toString r.bnuId ++ "_" ++ r.surname ++ "_" ++ r.name ++ "_Attendance_Report"

/-- Outcome of one `subprocess.run([soffice, "--headless", "--convert-to",
"pdf", "--outdir", dir, path], check=True)` invocation of the LibreOffice
conversion collaborator: either the process fails (non-zero exit or
timeout; Python raises `CalledProcessError`), or it exits zero, in which
case the expected `<basename>.pdf` may or may not actually have been
produced in the output directory. -/
inductive ConvOutcome where
  | failure
  | success (fileProduced : Bool)
  deriving Repr, DecidableEq

/-- Name of the `tempfile.NamedTemporaryFile(suffix=".docx")` created for
a record (the real name is random; the model keys it by the record). -/
def tempDocxName (r : StudentRec) : String :=
  "tmp_docx_" ++ zipEntryBase r

/-- Name of the `tempfile.mkdtemp()` conversion output directory created
for a record in the web app's PDF branch. -/
def tempDirName (r : StudentRec) : String :=
  "tmp_dir_" ++ zipEntryBase r

/-- Observable result of the PDF branch of `generate_reports` in
`attendance_app.py`: the archive entry names in the order they are
written into the zip, the temporary files/directories created and those
actually removed, the number of per-record errors reported inside the
loop, and whether an exception escaped `generate_reports` (aborting the
whole batch). -/
structure WebPdfState where
  archive : List String
  tempsCreated : List String
  tempsDeleted : List String
  errorsReported : Nat
  aborted : Bool
  deriving Repr, DecidableEq

/-- The per-record loop of `generate_reports` (PDF branch), lines 148-180
of `attendance_app.py`.  Each record: the filled document is saved to a
temp .docx, a temp output directory is made, and LibreOffice is run with
`check=True` and no surrounding try/except — so on a conversion failure
the `CalledProcessError` propagates out of the loop: the cleanup lines
never run for that record, no further record is processed, and no
per-record error is reported inside the loop.  On exit zero the expected
pdf is written into the zip when it exists (silently skipped when it does
not) and the temp file and directory are removed. -/
def webProcessPDF (conv : StudentRec → ConvOutcome) : List StudentRec → WebPdfState
  | [] => ⟨[], [], [], 0, false⟩
  | r :: rs =>
    match conv r with
    | .failure =>
      ⟨[], [tempDocxName r, tempDirName r], [], 0, true⟩
    | .success fileProduced =>
      let rest := webProcessPDF conv rs
      ⟨(if fileProduced then [zipEntryBase r ++ ".pdf"] else []) ++ rest.archive,
       tempDocxName r :: tempDirName r :: rest.tempsCreated,
       tempDocxName r :: tempDirName r :: rest.tempsDeleted,
       rest.errorsReported,
       rest.aborted⟩

/-- The DOCX branch of `generate_reports`: each record's document is
saved to a temp file, written into the zip under the naming convention,
and the temp file removed; no record can fail or be skipped. -/
def webProcessDOCX : List StudentRec → List String
  | [] => []
  | r :: rs => (zipEntryBase r ++ ".docx") :: webProcessDOCX rs

/-- Observable result of the per-student loop of
`attendance_report_generator_DIRECT_PDF_FINAL.py`: the PDF outputs
renamed into place (in row order), the number of per-record conversion
errors printed, and the temp .docx files created/removed. -/
structure DirectState where
  outputs : List String
  errorsReported : Nat
  tempsCreated : List String
  tempsDeleted : List String
  deriving Repr, DecidableEq

/-- The per-student loop of the direct-PDF script (lines 522-570): the
filled document is saved to a temp .docx and converted inside `try`; on
`CalledProcessError` the error is printed, the temp .docx is unlinked,
and the loop continues with the next student; on success the temp .docx
is unlinked and, when the produced `<basename>.pdf` exists, it is
renamed to the naming convention (silently nothing otherwise). -/
def directProcess (conv : StudentRec → ConvOutcome) : List StudentRec → DirectState
  | [] => ⟨[], 0, [], []⟩
  | r :: rs =>
    let rest := directProcess conv rs
    match conv r with
    | .failure =>
      ⟨rest.outputs, rest.errorsReported + 1,
       tempDocxName r :: rest.tempsCreated, tempDocxName r :: rest.tempsDeleted⟩
    | .success fileProduced =>
      ⟨(if fileProduced then [zipEntryBase r ++ ".pdf"] else []) ++ rest.outputs,
       rest.errorsReported,
       tempDocxName r :: rest.tempsCreated, tempDocxName r :: rest.tempsDeleted⟩

/-- The completion message of the direct-PDF script,
`print(f"... DONE! Successfully generated {len(df)} PDF reports")`: the
printed count is the length of the cleaned dataframe, independent of the
per-record outcomes (`attendance_app.py` line 343 prints the same
`len(df)` count). -/
def directReportedSuccessCount (records : List StudentRec) : Nat :=
  records.length

/-- Sample student records with identifiers 101-105. -/
def r101 : StudentRec := ⟨"Ada", "Lovelace", 101, "High Wycombe", 85/100, "G1"⟩

def r102 : StudentRec := ⟨"Alan", "Turing", 102, "High Wycombe", 90/100, "G1"⟩

def r103 : StudentRec := ⟨"Grace", "Hopper", 103, "Uxbridge", 75/100, "G2"⟩

def r104 : StudentRec := ⟨"Edsger", "Dijkstra", 104, "Uxbridge", 80/100, "G2"⟩

def r105 : StudentRec := ⟨"Annie", "Easley", 105, "Aylesbury", 65/100, "G3"⟩

/-- A batch of five records. -/
def records5 : List StudentRec := [r101, r102, r103, r104, r105]

/-- A conversion oracle that fails (non-zero exit) exactly on the record
with identifier 102 and otherwise produces the expected file. -/
def convFail102 (r : StudentRec) : ConvOutcome :=
  if r.bnuId = 102 then .failure else .success true

/-- A conversion oracle that always succeeds and produces the file. -/
def convAllOk : StudentRec → ConvOutcome := fun _ => .success true

/-- A conversion oracle that exits zero but fails to produce the expected
pdf file exactly for the record with identifier 102. -/
def convMissing102 (r : StudentRec) : ConvOutcome :=
  if r.bnuId = 102 then .success false else .success true

/-- Helper: the direct-PDF loop reports exactly one error per failing
conversion. -/
theorem directProcess_errorsReported (conv : StudentRec → ConvOutcome)
    (records : List StudentRec) :
    (directProcess conv records).errorsReported
      = records.countP (fun r => conv r = .failure) := by
  induction records with
  | nil => rfl
  | cons r rs ih =>
    rcases hc : conv r with _ | fp <;>
      simp [directProcess, List.countP_cons, hc, ih]

/-- Helper: the direct-PDF loop's outputs are exactly the records whose
conversion succeeded and produced the expected file, in source row
order. -/
theorem directProcess_outputs (conv : StudentRec → ConvOutcome)
    (records : List StudentRec) :
    (directProcess conv records).outputs
      = (records.filter (fun r => conv r = .success true)).map
          (fun r => zipEntryBase r ++ ".pdf") := by
  induction records with
  | nil => rfl
  | cons r rs ih =>
    rcases hc : conv r with _ | fp
    · simp [directProcess, List.filter_cons, hc, ih]
    · cases fp <;> simp [directProcess, List.filter_cons, hc, ih]

/-- Helper: the direct-PDF loop removes every temp file it creates, on
every exit path. -/
theorem directProcess_temps (conv : StudentRec → ConvOutcome)
    (records : List StudentRec) :
    (directProcess conv records).tempsCreated
      = (directProcess conv records).tempsDeleted := by
  induction records with
  | nil => rfl
  | cons r rs ih =>
    rcases hc : conv r with _ | fp <;> simp [directProcess, hc, ih]

/-- Helper: the web-app loop never reports a per-record error. -/
theorem webProcessPDF_errorsReported (conv : StudentRec → ConvOutcome)
    (records : List StudentRec) :
    (webProcessPDF conv records).errorsReported = 0 := by
  induction records with
  | nil => rfl
  | cons r rs ih =>
    rcases hc : conv r with _ | fp <;> simp [webProcessPDF, hc, ih]

/-- Helper: when the web-app PDF loop does not abort, its archive lists
exactly the records whose conversion produced the expected file, in
source row order. -/
theorem webProcessPDF_archive_of_not_aborted (conv : StudentRec → ConvOutcome)
    (records : List StudentRec)
    (hok : (webProcessPDF conv records).aborted = false) :
    (webProcessPDF conv records).archive
      = (records.filter (fun r => conv r = .success true)).map
          (fun r => zipEntryBase r ++ ".pdf") := by
  induction records with
  | nil => rfl
  | cons r rs ih =>
    rcases hc : conv r with _ | fp
    · exfalso
      simp [webProcessPDF, hc] at hok
    · have hok' : (webProcessPDF conv rs).aborted = false := by
        simpa [webProcessPDF, hc] using hok
      cases fp <;> simp [webProcessPDF, List.filter_cons, hc, ih hok']

/-- Helper: without conversion failures the web-app PDF loop removes
every temp file and directory it creates. -/
theorem webProcessPDF_temps_of_no_failure (conv : StudentRec → ConvOutcome)
    (records : List StudentRec) (h : ∀ r ∈ records, conv r ≠ .failure) :
    (webProcessPDF conv records).tempsCreated
      = (webProcessPDF conv records).tempsDeleted := by
  induction records with
  | nil => rfl
  | cons r rs ih =>
    rcases hc : conv r with _ | fp
    · exact absurd hc (h r (List.mem_cons_self r rs))
    · have ih' := ih (fun x hx => h x (List.mem_cons_of_mem _ hx))
      simp [webProcessPDF, hc, ih']

/-- Helper: the DOCX branch writes one entry per record, in source
order. -/
theorem webProcessDOCX_eq_map (records : List StudentRec) :
    webProcessDOCX records = records.map (fun r => zipEntryBase r ++ ".docx") := by
  induction records with
  | nil => rfl
  | cons r rs ih => simp [webProcessDOCX, ih]

/-- C3 counterexample: in `generate_reports` of `attendance_app.py`
(cited by the claim), a batch of 5 records with exactly one conversion
failure does NOT yield 4 successful outputs and does NOT complete: the
unhandled `CalledProcessError` from `subprocess.run(..., check=True)`
aborts the batch, leaving only the single entry written before the
failure. -/
theorem claim_C3_counterexample :
    (webProcessPDF convFail102 records5).aborted = true ∧
    (webProcessPDF convFail102 records5).archive.length = 1 ∧
    (webProcessPDF convFail102 records5).archive.length ≠ 4 := by
  refine ⟨rfl, rfl, ?_⟩
  intro h
  rw [show (webProcessPDF convFail102 records5).archive.length = 1 from rfl] at h
  exact absurd h (by decide)

/-- C3 amended: per-record recovery of conversion failures holds in the
direct-PDF script (whose per-student try/except the claim also cites):
each failing conversion is reported, the record is excluded from the
outputs, and the loop continues — on the concrete 5-record batch with
one failure it yields 4 outputs and 1 reported failure and completes.
In the web app's `generate_reports`, by contrast, the same failure
aborts the whole batch. -/
theorem claim_C3_amended_per_record_recovery (records : List StudentRec)
    (conv : StudentRec → ConvOutcome) :
    (directProcess conv records).errorsReported
      = records.countP (fun r => conv r = .failure) ∧
    (directProcess conv records).outputs
      = (records.filter (fun r => conv r = .success true)).map
          (fun r => zipEntryBase r ++ ".pdf") ∧
    (directProcess convFail102 records5).outputs.length = 4 ∧
    (directProcess convFail102 records5).errorsReported = 1 ∧
    (webProcessPDF convFail102 records5).aborted = true :=
  ⟨directProcess_errorsReported conv records, directProcess_outputs conv records,
   rfl, rfl, rfl⟩

/-- C6 counterexample: in the web app's PDF branch a conversion failure
propagates before the cleanup lines run, so the failing record's temp
.docx and temp output directory are never removed: on the concrete
failing batch, 4 temp entries were created but only 2 removed. -/
theorem claim_C6_counterexample :
    (webProcessPDF convFail102 records5).tempsCreated
      ≠ (webProcessPDF convFail102 records5).tempsDeleted := by
  intro h
  have h2 := congrArg List.length h
  rw [show (webProcessPDF convFail102 records5).tempsCreated.length = 4 from rfl,
    show (webProcessPDF convFail102 records5).tempsDeleted.length = 2 from rfl] at h2
  exact absurd h2 (by decide)

/-- C6 amended: the direct-PDF script deletes its scoped temp file on
every exit path (success, conversion failure, unexpected fault) before
the next record; the web app deletes its temp file and directory only on
the paths where the conversion subprocess does not raise — when no
conversion fails, everything created is deleted, but a conversion
failure leaks that record's temporaries (see the counterexample). -/
theorem claim_C6_amended_temp_cleanup (records : List StudentRec)
    (conv : StudentRec → ConvOutcome) :
    ((directProcess conv records).tempsCreated
       = (directProcess conv records).tempsDeleted) ∧
    ((∀ r ∈ records, conv r ≠ .failure) →
      (webProcessPDF conv records).tempsCreated
        = (webProcessPDF conv records).tempsDeleted) :=
  ⟨directProcess_temps conv records, webProcessPDF_temps_of_no_failure conv records⟩

/-- Witness for C6 amended: a failing conversion leaks nothing in the
direct script, and an all-success web run leaks nothing. -/
theorem claim_C6_amended_temp_cleanup_witness :
    ((directProcess convFail102 records5).tempsCreated
       = (directProcess convFail102 records5).tempsDeleted) ∧
    ((webProcessPDF convAllOk records5).tempsCreated
       = (webProcessPDF convAllOk records5).tempsDeleted) :=
  ⟨(claim_C6_amended_temp_cleanup records5 convFail102).1,
   (claim_C6_amended_temp_cleanup records5 convAllOk).2
     (fun r _ => by simp [convAllOk])⟩

/-- C7 counterexample: with one conversion failure among the 5 sample
records, the direct-PDF script's final summary still reports 5 (the
length of the cleaned dataframe) as the success count, not the 4 records
that actually produced output. -/
theorem claim_C7_counterexample :
    directReportedSuccessCount records5 = 5 ∧
    (directProcess convFail102 records5).outputs.length = 4 ∧
    (directProcess convFail102 records5).errorsReported = 1 ∧
    directReportedSuccessCount records5
      ≠ (directProcess convFail102 records5).outputs.length := by
  refine ⟨rfl, rfl, rfl, ?_⟩
  intro h
  rw [show directReportedSuccessCount records5 = 5 from rfl,
    show (directProcess convFail102 records5).outputs.length = 4 from rfl] at h
  exact absurd h (by decide)

/-- C7 amended: the final summary always reports the total number of
records in the cleaned input (`len(df)`) regardless of per-record
failures — with k of n records failing it reports n, overstating the
success count by k — while each conversion failure is reported where it
happens (one printed error per failing record in the direct-PDF
script). -/
theorem claim_C7_amended_summary_reports_total (records : List StudentRec)
    (conv : StudentRec → ConvOutcome) :
    directReportedSuccessCount records = records.length ∧
    (directProcess conv records).errorsReported
      = records.countP (fun r => conv r = .failure) ∧
    (directProcess conv records).outputs.length
      = (records.filter (fun r => conv r = .success true)).length :=
  ⟨rfl, directProcess_errorsReported conv records,
   by rw [directProcess_outputs conv records, List.length_map]⟩

/-- C8: records are processed sequentially in source row order (both
loops are sequential folds over the row list): the DOCX branch writes
one archive entry per record in exactly the source order, and the PDF
branch, whenever it completes without aborting, writes the entries of
the included records (those whose conversion produced the expected file)
in source row order. -/
theorem claim_C8_archive_preserves_row_order (records : List StudentRec)
    (conv : StudentRec → ConvOutcome)
    (hok : (webProcessPDF conv records).aborted = false) :
    webProcessDOCX records = records.map (fun r => zipEntryBase r ++ ".docx") ∧
    (webProcessPDF conv records).archive
      = (records.filter (fun r => conv r = .success true)).map
          (fun r => zipEntryBase r ++ ".pdf") :=
  ⟨webProcessDOCX_eq_map records, webProcessPDF_archive_of_not_aborted conv records hok⟩

/-- Witness for C8 on the concrete 5-record batch with an all-success
conversion oracle. -/
theorem claim_C8_archive_preserves_row_order_witness :
    webProcessDOCX records5 = records5.map (fun r => zipEntryBase r ++ ".docx") ∧
    (webProcessPDF convAllOk records5).archive
      = (records5.filter (fun r => convAllOk r = .success true)).map
          (fun r => zipEntryBase r ++ ".pdf") :=
  claim_C8_archive_preserves_row_order records5 convAllOk rfl

/-- C10: in the web app's PDF branch, a record whose conversion exits
zero without producing the expected pdf file is silently omitted: the
archive and the abort status are the same as if the record were not in
the batch at all, and no per-record error is ever reported in this
loop. -/
theorem claim_C10_missing_pdf_silently_omitted (conv : StudentRec → ConvOutcome)
    (pre post : List StudentRec) (r : StudentRec)
    (hr : conv r = .success false) :
    (webProcessPDF conv (pre ++ r :: post)).archive
      = (webProcessPDF conv (pre ++ post)).archive ∧
    (webProcessPDF conv (pre ++ r :: post)).aborted
      = (webProcessPDF conv (pre ++ post)).aborted ∧
    (webProcessPDF conv (pre ++ r :: post)).errorsReported = 0 := by
  refine ⟨?_, ?_, webProcessPDF_errorsReported conv _⟩
  all_goals
    induction pre with
    | nil => simp [webProcessPDF, hr]
    | cons p pre ih => rcases hc : conv p with _ | fp <;> simp [webProcessPDF, hc, ih]

/-- Witness for C10: with the oracle that produces no file for record
102, the 5-record batch behaves exactly like the 4-record batch without
record 102. -/
theorem claim_C10_missing_pdf_silently_omitted_witness :
    (webProcessPDF convMissing102 ([r101] ++ r102 :: [r103, r104, r105])).archive
      = (webProcessPDF convMissing102 ([r101] ++ [r103, r104, r105])).archive ∧
    (webProcessPDF convMissing102 ([r101] ++ r102 :: [r103, r104, r105])).aborted
      = (webProcessPDF convMissing102 ([r101] ++ [r103, r104, r105])).aborted ∧
    (webProcessPDF convMissing102 ([r101] ++ r102 :: [r103, r104, r105])).errorsReported = 0 :=
  claim_C10_missing_pdf_silently_omitted convMissing102 [r101] [r103, r104, r105] r102 rfl

/-- Python's notion of a whitespace character as `str.strip()` removes
it, restricted to the variants occurring in this repository's data:
plain space, tab, newline, carriage return, vertical tab, form feed, and
the non-breaking space U+00A0 that the Excel headers contained (Python's
`str.strip()` and pandas `.str.strip()` both remove all of these). -/
def pyIsSpace (c : Char) : Bool :=
  c = ' ' || c = '\t' || c = '\n' || c = '\r' || c = '\u000B' || c = '\u000C' || c = ' '

/-- `str.strip()` on the underlying character list: leading and trailing
whitespace characters are removed. -/
def pyStripList (l : List Char) : List Char :=
  ((l.dropWhile pyIsSpace).reverse.dropWhile pyIsSpace).reverse

/-- Python's `s.strip()` / pandas `.str.strip()` on one column label. -/
def pyStrip (s : String) : String :=
  String.mk (pyStripList s.data)

/-- The header-cleaning step `df.columns = df.columns.str.strip()` of
`attendance_app.py` (line 309) and of the direct-PDF script: every
column label is stripped. -/
def normalizeColumns (header : List String) : List String :=
  header.map pyStrip

/-- Section 5 of `attendance_report_generator.py` performs NO column
normalization: it accesses `df["Name "]` with the hard-coded label
"Name " (trailing plain space) directly against the raw header; the
access succeeds iff that exact label occurs among the raw column
labels. -/
def script1NameAccessOk (header : List String) : Bool :=
  header.contains "Name "

/-- Helper: dropping a satisfied-elements run twice is dropping it once. -/
theorem dropWhile_dropWhile {α : Type} (p : α → Bool) (l : List α) :
    (l.dropWhile p).dropWhile p = l.dropWhile p := by
  induction l with
  | nil => rfl
  | cons a t ih =>
    by_cases h : p a
    · simp [List.dropWhile_cons, h, ih]
    · simp [List.dropWhile_cons, h]

/-- Helper: the head of a dropWhile result does not satisfy the
predicate. -/
theorem head?_dropWhile_false {α : Type} (p : α → Bool) (l : List α) (c : α)
    (h : (l.dropWhile p).head? = some c) : p c = false := by
  induction l with
  | nil => simp [List.dropWhile_nil] at h
  | cons a t ih =>
    cases hp : p a
    · simp [List.dropWhile_cons, hp] at h
      rw [← h]
      exact hp
    · simp [List.dropWhile_cons, hp] at h
      exact ih h

/-- Helper: dropWhile keeps the last element of a list it does not
empty. -/
theorem getLast?_dropWhile {α : Type} (p : α → Bool) (l : List α)
    (h : l.dropWhile p ≠ []) : (l.dropWhile p).getLast? = l.getLast? := by
  induction l with
  | nil => simp at h
  | cons a t ih =>
    cases hp : p a
    · simp [List.dropWhile_cons, hp]
    · have h' : t.dropWhile p ≠ [] := by
        simpa [List.dropWhile_cons, hp] using h
      cases t with
      | nil => simp at h'
      | cons b t2 =>
        have hih := ih h'
        simp [List.dropWhile_cons, hp, List.getLast?_cons_cons]
        simpa [List.dropWhile_cons, hp] using hih

/-- Helper: a list whose head fails the predicate is untouched by
dropWhile. -/
theorem dropWhile_eq_self_of_head {α : Type} (p : α → Bool) (l : List α)
    (h : ∀ c, l.head? = some c → p c = false) : l.dropWhile p = l := by
  cases l with
  | nil => rfl
  | cons a t => simp [List.dropWhile_cons, h a rfl]

/-- Helper: stripping both ends twice equals stripping once. -/
theorem strip_strip {α : Type} (p : α → Bool) (l : List α) :
    ((((l.dropWhile p).reverse.dropWhile p).reverse.dropWhile p).reverse.dropWhile p).reverse
      = ((l.dropWhile p).reverse.dropWhile p).reverse := by
  have hhead : ∀ c, ((l.dropWhile p).reverse.dropWhile p).reverse.head? = some c →
      p c = false := by
    intro c hc
    by_cases hB : (l.dropWhile p).reverse.dropWhile p = []
    · rw [hB] at hc
      simp at hc
    · rw [List.head?_reverse, getLast?_dropWhile p _ hB, List.getLast?_reverse] at hc
      exact head?_dropWhile_false p l c hc
  rw [dropWhile_eq_self_of_head p _ hhead, List.reverse_reverse, dropWhile_dropWhile]

/-- Helper: `str.strip()` is idempotent. -/
theorem pyStrip_idem (s : String) : pyStrip (pyStrip s) = pyStrip s :=
  congrArg String.mk (strip_strip pyIsSpace s.data)

/-- Helper: normalizing an already-normalized header is a no-op. -/
theorem normalizeColumns_idem (header : List String) :
    normalizeColumns (normalizeColumns header) = normalizeColumns header := by
  unfold normalizeColumns
  rw [List.map_map]
  exact List.map_congr_left (fun a _ => pyStrip_idem a)

/-- C5 counterexample: the base script applies no normalization before
lookup — it uses the hard-coded raw label "Name ", which is itself not a
normalized label, and its access fails on the non-breaking-space variant
of the very same header label (both variants strip to "Name"). -/
theorem claim_C5_counterexample :
    script1NameAccessOk ["Name\u00A0"] = false ∧
    pyStrip "Name\u00A0" = "Name" ∧
    pyStrip "Name " = "Name" ∧
    pyStrip "Name " ≠ "Name " := by
  refine ⟨rfl, by decide, by decide, by decide⟩

/-- C5 amended: `str.strip` normalization is idempotent, and where the
code applies it (the web app and the direct-PDF script normalize the
whole header before any field access and use stripped labels for every
subsequent access) lookup succeeds for every incidental-whitespace
variant of a column label; the base script
`attendance_report_generator.py`, however, applies no normalization and
hard-codes the un-normalized label "Name ", so its lookup fails on other
whitespace variants of that header label. -/
theorem claim_C5_amended_normalization (s : String) (header : List String)
    (v : String) (hv : v ∈ header) :
    pyStrip (pyStrip s) = pyStrip s ∧
    normalizeColumns (normalizeColumns header) = normalizeColumns header ∧
    pyStrip v ∈ normalizeColumns header ∧
    (pyStrip "Name " = "Name" ∧ pyStrip " Name" = "Name" ∧
      pyStrip "Name\u00A0" = "Name" ∧ pyStrip "\u00A0Name " = "Name") ∧
    script1NameAccessOk ["Name\u00A0"] = false :=
  ⟨pyStrip_idem s, normalizeColumns_idem header,
   List.mem_map.mpr ⟨v, hv, rfl⟩,
   ⟨by decide, by decide, by decide, by decide⟩, rfl⟩

/-- Witness for C5 amended at a concrete header containing the
non-breaking-space variant. -/
theorem claim_C5_amended_normalization_witness :
    pyStrip (pyStrip " Name ") = pyStrip " Name " ∧
    normalizeColumns (normalizeColumns ["Name\u00A0"]) = normalizeColumns ["Name\u00A0"] ∧
    pyStrip "Name\u00A0" ∈ normalizeColumns ["Name\u00A0"] ∧
    (pyStrip "Name " = "Name" ∧ pyStrip " Name" = "Name" ∧
      pyStrip "Name\u00A0" = "Name" ∧ pyStrip "\u00A0Name " = "Name") ∧
    script1NameAccessOk ["Name\u00A0"] = false :=
  claim_C5_amended_normalization " Name " ["Name\u00A0"] "Name\u00A0"
    (List.mem_cons_self ..)

end AttendanceReport
